import Mathlib

set_option autoImplicit false

/-!
Verification development for the ride-safety monitoring engine.

The scoring and escalation logic of `src/lib/safety-engine.ts` and the two API
route handlers is embedded shallowly over exact rational arithmetic.  The one
transcendental ingredient, the haversine point-to-point distance
(`calculateDistance`), is abstracted as an explicit function parameter
`dist : Location → Location → ℚ`; every consumer of geometry is embedded
parametrically over it, so theorems hold for the actual great-circle distance
(and any other distance oracle).  JavaScript's `Infinity` initial value in the
distance-from-route minimisation is modelled with `WithTop ℚ`.
-/

/-- GPS sample source tag (safety-types). -/
inductive LocationSource where
  | gps
  | network
  | wifi
  | cell
  | last_known
deriving DecidableEq

/-- A geolocation sample (safety-types `Location`). -/
structure Location where
  lat : ℚ
  lng : ℚ
  timestamp : ℚ
  accuracy : Option ℚ := none
  source : LocationSource
deriving DecidableEq

/-- A known dangerous area (safety-types `HighRiskZone`). -/
structure HighRiskZone where
  id : String
  center : Location
  radius : ℚ
  riskLevel : ℚ
  reason : String
  reportCount : ℕ
  lastReported : ℚ
deriving DecidableEq

/-- A candidate or confirmed route (safety-types `Route`). -/
structure Route where
  id : String
  waypoints : List Location
  safetyScore : ℚ
  distance : ℚ
  estimatedDuration : ℚ
  highRiskZones : List HighRiskZone
deriving DecidableEq

/-- A recorded interval outside the safe corridor (safety-types `DeviationPoint`). -/
structure DeviationPoint where
  location : Location
  distanceFromRoute : ℚ
  duration : ℚ
  timestamp : ℚ
deriving DecidableEq

/-- Community report category (safety-types). -/
inductive ReportType where
  | unsafe_area
  | safe_area
  | incident
  | suspicious_activity
deriving DecidableEq

/-- A crowd-submitted safety observation (safety-types `CommunityReport`). -/
structure CommunityReport where
  id : String
  reporterId : String
  reporterTrustScore : ℚ
  location : Location
  type : ReportType
  description : String
  timestamp : ℚ
  verificationCount : ℕ
  isVerified : Bool
deriving DecidableEq

/-- The four threat sub-scores (safety-types `ThreatFactors`). -/
structure ThreatFactors where
  routeDeviation : ℚ
  suspiciousStops : ℚ
  highRiskZone : ℚ
  locationDisabled : ℚ
deriving DecidableEq

/-- Discrete threat level (safety-types). -/
inductive ThreatLevel where
  | safe
  | low
  | medium
  | high
  | critical
deriving DecidableEq

/-- Escalation action attached to an assessment (safety-types). -/
inductive ThreatAction where
  | none
  | log
  | silent_dispatch
  | emergency_escalation
deriving DecidableEq

/-- Output of one threat evaluation (safety-types `ThreatAssessment`). -/
structure ThreatAssessment where
  timestamp : ℚ
  score : ℚ
  factors : ThreatFactors
  level : ThreatLevel
  action : ThreatAction
deriving DecidableEq

/-- An emergency contact; `email = ""` models an absent address
(safety-types `EmergencyContact`). -/
structure EmergencyContact where
  id : String
  name : String
  phone : String
  email : String
  relationship : String
  notified : Bool
  notifiedAt : Option ℚ := none
deriving DecidableEq

/-- Result of `validateCommunityReport`. -/
structure ValidationResult where
  valid : Bool
  weight : ℚ
  reason : Option String
deriving DecidableEq

/-- Safe corridor around the confirmed route, meters (safety-types). -/
def SAFE_CORRIDOR_RADIUS : ℚ := 100

/-- Stop duration threshold, milliseconds (safety-types). -/
def SUSPICIOUS_STOP_DURATION : ℚ := 60000

/-- Location update cadence, milliseconds (safety-types). -/
def LOCATION_UPDATE_INTERVAL : ℚ := 10000

namespace THREAT_THRESHOLDS

def SOFT_ALERT : ℚ := 0.4

def SILENT_DISPATCH : ℚ := 0.7

def EMERGENCY_ESCALATION : ℚ := 0.9

end THREAT_THRESHOLDS

namespace THREAT_WEIGHTS

def ROUTE_DEVIATION : ℚ := 0.4

def SUSPICIOUS_STOPS : ℚ := 0.3

def HIGH_RISK_ZONE : ℚ := 0.2

def LOCATION_DISABLED : ℚ := 0.1

end THREAT_WEIGHTS

namespace COMMUNITY_SETTINGS

def MAX_WEIGHT : ℚ := 0.1

def MIN_TRUST_SCORE : ℚ := 0.3

def MIN_CONSENSUS : ℕ := 3

def DECAY_DAYS : ℚ := 30

end COMMUNITY_SETTINGS

/-- Orthogonal projection of `point` onto the segment `[lineStart, lineEnd]`
clamped to the segment, then measured with `dist` (safety-engine
`pointToLineSegmentDistance`, lines 69-98).  A zero-length segment makes
`lenSq = 0`, so no division happens and `param` stays `-1`. -/
def pointToLineSegmentDistance (dist : Location → Location → ℚ)
    (point lineStart lineEnd : Location) : ℚ :=
  let A := point.lat - lineStart.lat
  let B := point.lng - lineStart.lng
  let C := lineEnd.lat - lineStart.lat
  let D := lineEnd.lng - lineStart.lng
  let dot := A * C + B * D
  let lenSq := C * C + D * D
  let param := if lenSq ≠ 0 then dot / lenSq else -1
  let nearestLat :=
    if param < 0 then lineStart.lat
    else if param > 1 then lineEnd.lat
    else lineStart.lat + param * C
  let nearestLng :=
    if param < 0 then lineStart.lng
    else if param > 1 then lineEnd.lng
    else lineStart.lng + param * D
  dist point { lat := nearestLat, lng := nearestLng, timestamp := 0, source := LocationSource.gps }

/-- Consecutive waypoint pairs, i.e. the segments the source iterates over
with `for (let i = 0; i < waypoints.length - 1; i++)`. -/
def routeSegments : List Location → List (Location × Location)
  | a :: b :: rest => (a, b) :: routeSegments (b :: rest)
  | _ => []

/-- Minimum distance from a point to a route (safety-engine `distanceFromRoute`,
lines 41-64).  `⊤` models the `Infinity` the loop starts from, which survives
only when the waypoint list is empty. -/
def distanceFromRoute (dist : Location → Location → ℚ) (point : Location)
    (route : Route) : WithTop ℚ :=
  let waypointDists : List (WithTop ℚ) :=
    route.waypoints.map fun w => ((dist point w : ℚ) : WithTop ℚ)
  let segmentDists : List (WithTop ℚ) :=
    (routeSegments route.waypoints).map fun s =>
      ((pointToLineSegmentDistance dist point s.1 s.2 : ℚ) : WithTop ℚ)
  (waypointDists ++ segmentDists).foldl min ⊤

/-- `Math.min(currentDistance / 1000, 1)` lifted to `WithTop ℚ`: JavaScript has
`Infinity / 1000 = Infinity` and `Math.min(Infinity, 1) = 1`. -/
def distanceScoreOf : WithTop ℚ → ℚ :=
  WithTop.recTopCoe 1 fun d => min (d / 1000) 1

/-- Route deviation factor (safety-engine `calculateRouteDeviationScore`,
lines 104-128).  `now` stands for the `Date.now()` calls. -/
def calculateRouteDeviationScore (dist : Location → Location → ℚ) (now : ℚ)
    (currentLocation : Location) (confirmedRoute : Route)
    (deviationHistory : List DeviationPoint) : ℚ :=
  let currentDistance := distanceFromRoute dist currentLocation confirmedRoute
  if currentDistance ≤ (SAFE_CORRIDOR_RADIUS : WithTop ℚ) then 0
  else
    let distanceScore := distanceScoreOf currentDistance
    let recentDeviations := deviationHistory.filter fun d => decide (now - d.timestamp < 300000)
    let totalDeviationTime := (recentDeviations.map fun d => d.duration).sum
    let timeScore := min (totalDeviationTime / 300000) 1
    min (distanceScore * 0.6 + timeScore * 0.4) 1

/-- Instantaneous speed of a consecutive sample pair in m/s; a non-positive
time difference short-circuits to speed `0` (safety-engine line 146). -/
def speedOf (dist : Location → Location → ℚ) (prev curr : Location) : ℚ :=
  let distance := dist prev curr
  let timeDiff := curr.timestamp - prev.timestamp
  if timeDiff > 0 then distance / (timeDiff / 1000) else 0

/-- The scan loop of `calculateSuspiciousStopsScore` (lines 141-160), carried
state `(suspiciousStopCount, currentStopDuration)`. -/
def stopScan (dist : Location → Location → ℚ) (count : ℕ) (dur : ℚ) :
    List Location → ℕ × ℚ
  | prev :: curr :: rest =>
    let timeDiff := curr.timestamp - prev.timestamp
    if speedOf dist prev curr < 1 then
      stopScan dist count (dur + timeDiff) (curr :: rest)
    else if dur > SUSPICIOUS_STOP_DURATION then
      stopScan dist (count + 1) 0 (curr :: rest)
    else
      stopScan dist count 0 (curr :: rest)
  | _ => (count, dur)

/-- Suspicious stops factor (safety-engine `calculateSuspiciousStopsScore`,
lines 134-169). -/
def calculateSuspiciousStopsScore (dist : Location → Location → ℚ)
    (locationHistory : List Location) : ℚ :=
  if locationHistory.length < 2 then 0
  else
    let scanned := stopScan dist 0 0 locationHistory
    let suspiciousStopCount :=
      if scanned.2 > SUSPICIOUS_STOP_DURATION then scanned.1 + 1 else scanned.1
    min ((suspiciousStopCount : ℚ) / 3) 1

/-- The loop body of `calculateHighRiskZoneScore` (lines 181-192): inside the
zone the full risk level applies, within twice the radius it decays linearly,
otherwise the accumulator is unchanged. -/
def riskStep (dist : Location → Location → ℚ) (currentLocation : Location)
    (maxRisk : ℚ) (zone : HighRiskZone) : ℚ :=
  let distance := dist currentLocation zone.center
  if distance ≤ zone.radius then max maxRisk zone.riskLevel
  else if distance ≤ zone.radius * 2 then
    let proximityFactor := 1 - (distance - zone.radius) / zone.radius
    max maxRisk (zone.riskLevel * proximityFactor)
  else maxRisk

/-- High-risk zone factor (safety-engine `calculateHighRiskZoneScore`,
lines 175-195). -/
def calculateHighRiskZoneScore (dist : Location → Location → ℚ)
    (currentLocation : Location) (highRiskZones : List HighRiskZone) : ℚ :=
  highRiskZones.foldl (riskStep dist currentLocation) 0

/-- Location disabled factor (safety-engine `calculateLocationDisabledScore`,
lines 201-225). -/
def calculateLocationDisabledScore (locationEnabled : Bool)
    (lastKnownLocation : Option Location) (timeSinceLastUpdate : ℚ) : ℚ :=
  if locationEnabled && decide (timeSinceLastUpdate < 30000) then 0
  else if !locationEnabled then 1
  else if timeSinceLastUpdate > 60000 then 0.8
  else if timeSinceLastUpdate > 30000 then 0.4
  else 0

/-- The level/action threshold chain of `assessThreat` (lines 266-285),
factored as a function of the weighted score. -/
def classifyScore (score : ℚ) : ThreatLevel × ThreatAction :=
  if score ≥ THREAT_THRESHOLDS.EMERGENCY_ESCALATION then
    (ThreatLevel.critical, ThreatAction.emergency_escalation)
  else if score ≥ THREAT_THRESHOLDS.SILENT_DISPATCH then
    (ThreatLevel.high, ThreatAction.silent_dispatch)
  else if score ≥ THREAT_THRESHOLDS.SOFT_ALERT then
    (ThreatLevel.medium, ThreatAction.log)
  else if score > 0.2 then
    (ThreatLevel.low, ThreatAction.none)
  else
    (ThreatLevel.safe, ThreatAction.none)

/-- Main threat assessment (safety-engine `assessThreat`, lines 231-294).
`now` stands for `Date.now()`. -/
def assessThreat (dist : Location → Location → ℚ) (now : ℚ)
    (currentLocation : Option Location) (confirmedRoute : Route)
    (locationHistory : List Location) (deviationHistory : List DeviationPoint)
    (highRiskZones : List HighRiskZone) (locationEnabled : Bool)
    (lastUpdateTime : ℚ) : ThreatAssessment :=
  let timeSinceLastUpdate := now - lastUpdateTime
  let factors : ThreatFactors :=
    { routeDeviation :=
        match currentLocation with
        | some loc => calculateRouteDeviationScore dist now loc confirmedRoute deviationHistory
        | none => 0.5
      suspiciousStops := calculateSuspiciousStopsScore dist locationHistory
      highRiskZone :=
        match currentLocation with
        | some loc => calculateHighRiskZoneScore dist loc highRiskZones
        | none => 0
      locationDisabled :=
        calculateLocationDisabledScore locationEnabled currentLocation timeSinceLastUpdate }
  let score :=
    factors.routeDeviation * THREAT_WEIGHTS.ROUTE_DEVIATION +
    factors.suspiciousStops * THREAT_WEIGHTS.SUSPICIOUS_STOPS +
    factors.highRiskZone * THREAT_WEIGHTS.HIGH_RISK_ZONE +
    factors.locationDisabled * THREAT_WEIGHTS.LOCATION_DISABLED
  { timestamp := now
    score := score
    factors := factors
    level := (classifyScore score).1
    action := (classifyScore score).2 }

/-- Community report validation (safety-engine `validateCommunityReport`,
lines 299-348).  `now` stands for the `Date.now()` calls. -/
def validateCommunityReport (dist : Location → Location → ℚ) (now : ℚ)
    (report : CommunityReport) (existingReports : List CommunityReport) :
    ValidationResult :=
  if report.reporterTrustScore < COMMUNITY_SETTINGS.MIN_TRUST_SCORE then
    { valid := false, weight := 0, reason := some "Reporter trust score too low" }
  else
    let sameReporterRecent := existingReports.filter fun r =>
      r.reporterId == report.reporterId && decide (now - r.timestamp < 86400000)
    if sameReporterRecent.length > 5 then
      { valid := false, weight := 0, reason := some "Suspicious reporting frequency" }
    else
      let reportsInSameArea := existingReports.filter fun r =>
        decide (dist r.location report.location < 500)
      let recentAreaReports := reportsInSameArea.filter fun r =>
        decide (now - r.timestamp < 3600000)
      if recentAreaReports.length > 10 then
        { valid := false, weight := 0, reason := some "Possible coordinated manipulation" }
      else
        let ageInDays := (now - report.timestamp) / 86400000
        let decayFactor := max 0 (1 - ageInDays / COMMUNITY_SETTINGS.DECAY_DAYS)
        let consensusReports := reportsInSameArea.filter fun r =>
          r.type == report.type && r.isVerified
        let hasConsensus := consensusReports.length ≥ COMMUNITY_SETTINGS.MIN_CONSENSUS
        let weight :=
          if hasConsensus then
            COMMUNITY_SETTINGS.MAX_WEIGHT * decayFactor * report.reporterTrustScore
          else
            COMMUNITY_SETTINGS.MAX_WEIGHT * 0.3 * decayFactor * report.reporterTrustScore
        { valid := true, weight := weight, reason := Option.none }

/-- The level/action chain of the monitoring handler's `force-threat-level`
case (part_001 lines 305-320): strict upper bounds checked low-to-high. -/
def forcedLevelAction (forcedScore : ℚ) : ThreatLevel × ThreatAction :=
  if forcedScore < 0.2 then (ThreatLevel.safe, ThreatAction.none)
  else if forcedScore < 0.4 then (ThreatLevel.low, ThreatAction.none)
  else if forcedScore < 0.7 then (ThreatLevel.medium, ThreatAction.log)
  else if forcedScore < 0.9 then (ThreatLevel.high, ThreatAction.silent_dispatch)
  else (ThreatLevel.critical, ThreatAction.emergency_escalation)

/-- The synthetic assessment the `force-threat-level` case builds
(part_001 lines 322-333), with factors back-filled from the weights. -/
def forcedThreat (now forcedScore : ℚ) : ThreatAssessment :=
  { timestamp := now
    score := forcedScore
    factors :=
      { routeDeviation := forcedScore * 0.4
        suspiciousStops := forcedScore * 0.3
        highRiskZone := forcedScore * 0.2
        locationDisabled := forcedScore * 0.1 }
    level := (forcedLevelAction forcedScore).1
    action := (forcedLevelAction forcedScore).2 }

/-- Result of the contact-notification loop in `handleEscalation`:
the updated contact list, the `emergencyContactsNotified` entries appended to
the evidence packet, and the contacts for which an email send was attempted. -/
structure NotifyResult where
  contacts : List EmergencyContact
  packet : List EmergencyContact
  attempted : List EmergencyContact
deriving DecidableEq

/-- The emergency-contact loop of `handleEscalation` (part_001 lines 401-424):
a contact is processed only if not yet notified and owning an email address;
`emailOk` abstracts the external email collaborator's success flag, and `now`
the `Date.now()` recorded in `notifiedAt`. -/
def notifyContacts (emailOk : EmergencyContact → Bool) (now : ℚ) :
    List EmergencyContact → NotifyResult
  | [] => { contacts := [], packet := [], attempted := [] }
  | c :: rest =>
    let r := notifyContacts emailOk now rest
    if !c.notified && (c.email != "") then
      if emailOk c then
        let c' := { c with notified := true, notifiedAt := some now }
        { contacts := c' :: r.contacts, packet := c' :: r.packet, attempted := c :: r.attempted }
      else
        { contacts := c :: r.contacts, packet := r.packet, attempted := c :: r.attempted }
    else
      { contacts := c :: r.contacts, packet := r.packet, attempted := r.attempted }

/-- Ride session lifecycle states (safety-types `RideSession.status`). -/
inductive SessionStatus where
  | setup
  | active
  | completed
  | emergency
  | cancelled
deriving DecidableEq

/-- One request handled against an existing session, carrying exactly the data
that determines its effect on `session.status`:
`confirmRoute` (part_000 `confirm-route`) carries whether the route id was
found; `endRide` (part_000 `end-ride`) carries the `reason` field;
`updateLocation` (part_001 `update-location`) carries the computed assessment
action; `locationDisabled` (part_001 `location-disabled`) carries the computed
score; `forceThreatLevel` carries the forced score. -/
inductive SessionOp where
  | confirmRoute (routeFound : Bool)
  | getSession
  | endRide (reason : String)
  | updateLocation (act : ThreatAction)
  | locationDisabledEvent (score : ℚ)
  | networkLoss
  | manualEmergency
  | forceThreatLevel (forcedScore : ℚ)
deriving DecidableEq

/-- Whether an assessment action triggers `handleEscalation`
(part_001 line 124), which unconditionally sets the status to `emergency`
(line 455). -/
def escalates (act : ThreatAction) : Bool :=
  act == ThreatAction.silent_dispatch || act == ThreatAction.emergency_escalation

/-- The effect of each handler on `session.status`, read off the two API route
files: `confirm-route` sets `active` (part_000 line 182); `end-ride` sets
`emergency` or `completed` from the reason (line 225); `update-location`
escalates on a qualifying action (part_001 lines 124-126, 455);
`location-disabled` escalates when the score reaches 0.4 (lines 186-188);
`network-loss` and `get-session` never write it; `manual-emergency` sets
`emergency` (line 259); `force-threat-level` sets `emergency` at score ≥ 0.9
(lines 337-339) and additionally escalates on a qualifying derived action
(lines 343-346). -/
def stepStatus : SessionOp → SessionStatus → SessionStatus
  | SessionOp.confirmRoute routeFound, st =>
    if routeFound then SessionStatus.active else st
  | SessionOp.getSession, st => st
  | SessionOp.endRide reason, _ =>
    if reason == "emergency" then SessionStatus.emergency else SessionStatus.completed
  | SessionOp.updateLocation act, st =>
    if escalates act then SessionStatus.emergency else st
  | SessionOp.locationDisabledEvent score, st =>
    if score ≥ 0.4 then SessionStatus.emergency else st
  | SessionOp.networkLoss, st => st
  | SessionOp.manualEmergency, _ => SessionStatus.emergency
  | SessionOp.forceThreatLevel forcedScore, st =>
    let st1 := if forcedScore ≥ 0.9 then SessionStatus.emergency else st
    if escalates (forcedLevelAction forcedScore).2 then SessionStatus.emergency else st1

/-- Runs a sequence of handler operations against a session status. -/
def runOps (ops : List SessionOp) (st : SessionStatus) : SessionStatus :=
  ops.foldl (fun s op => stepStatus op s) st

/-- The per-pair data of the suspicious-stop scan: instantaneous speed and
time difference for each consecutive location pair. -/
def pairSteps (dist : Location → Location → ℚ) : List Location → List (ℚ × ℚ)
  | prev :: curr :: rest =>
    (speedOf dist prev curr, curr.timestamp - prev.timestamp) :: pairSteps dist (curr :: rest)
  | _ => []

/-- Whether a scan pair counts as stopped (speed below 1 m/s). -/
def isStopped (p : ℚ × ℚ) : Bool := decide (p.1 < 1)

/-- The durations of the maximal contiguous runs of stopped pairs, in order;
a trailing run still open at the end of the history is included. -/
def stoppedRuns : List (ℚ × ℚ) → List (List ℚ)
  | [] => []
  | p :: rest =>
    if isStopped p then
      ((p :: rest.takeWhile isStopped).map Prod.snd) :: stoppedRuns (rest.dropWhile isStopped)
    else stoppedRuns rest
termination_by l => l.length
decreasing_by
  · simpa using Nat.lt_succ_of_le (List.Sublist.length_le (List.dropWhile_sublist _))
  · simp

/-- The number of maximal stopped runs whose accumulated duration exceeds the
60 s threshold, counting a run still open at the end of the history. -/
def qualifyingStopCount (dist : Location → Location → ℚ)
    (locationHistory : List Location) : ℕ :=
  (stoppedRuns (pairSteps dist locationHistory)).countP
    fun run => decide (run.sum > SUSPICIOUS_STOP_DURATION)

/-- Run-counting with an open-run duration accumulator; proof intermediary
between `stopScan` and `stoppedRuns`. -/
def qualCount (dur : ℚ) : List (ℚ × ℚ) → ℕ
  | [] => if dur > SUSPICIOUS_STOP_DURATION then 1 else 0
  | p :: rest =>
    if isStopped p then qualCount (dur + p.2) rest
    else (if dur > SUSPICIOUS_STOP_DURATION then 1 else 0) + qualCount 0 rest

/-- A simple computable stand-in for the geometry parameter, used to
instantiate theorems at concrete inputs: taxicab distance in degrees scaled by
111 km per degree. -/
def demoDist (p q : Location) : ℚ :=
  |p.lat - q.lat| * 111000 + |p.lng - q.lng| * 111000

/-- A minimal route value used to instantiate theorems at concrete inputs. -/
def demoRoute : Route :=
  { id := "route-demo", waypoints := [], safetyScore := 0, distance := 0,
    estimatedDuration := 0, highRiskZones := [] }

/-- The threshold chain maps each score band to its level/action pair. -/
theorem classifyScore_spec (s : ℚ) :
    (0.9 ≤ s → classifyScore s = (ThreatLevel.critical, ThreatAction.emergency_escalation)) ∧
    (0.7 ≤ s → s < 0.9 → classifyScore s = (ThreatLevel.high, ThreatAction.silent_dispatch)) ∧
    (0.4 ≤ s → s < 0.7 → classifyScore s = (ThreatLevel.medium, ThreatAction.log)) ∧
    (0.2 < s → s < 0.4 → classifyScore s = (ThreatLevel.low, ThreatAction.none)) ∧
    (s ≤ 0.2 → classifyScore s = (ThreatLevel.safe, ThreatAction.none)) := by
  unfold classifyScore THREAT_THRESHOLDS.EMERGENCY_ESCALATION
    THREAT_THRESHOLDS.SILENT_DISPATCH THREAT_THRESHOLDS.SOFT_ALERT
  split_ifs with h1 h2 h3 h4 <;>
    refine ⟨?_, ?_, ?_, ?_, ?_⟩ <;> intros <;> first | rfl | linarith

/-- C2: every assessment returned by assessThreat carries the level and action
that the high-to-low threshold chain assigns to its score: score ≥ 0.9 gives
critical/emergency_escalation, then ≥ 0.7 high/silent_dispatch, then ≥ 0.4
medium/log, then > 0.2 low/none, else safe/none; in particular scores exactly
0.4, 0.7 and 0.9 give medium/log, high/silent_dispatch and
critical/emergency_escalation respectively. -/
theorem assessThreat_level_thresholds (d : Location → Location → ℚ) (n : ℚ)
    (l : Option Location) (r : Route) (hst : List Location) (v : List DeviationPoint)
    (z : List HighRiskZone) (e : Bool) (u : ℚ) :
    (0.9 ≤ (assessThreat d n l r hst v z e u).score →
      (assessThreat d n l r hst v z e u).level = ThreatLevel.critical ∧
      (assessThreat d n l r hst v z e u).action = ThreatAction.emergency_escalation) ∧
    (0.7 ≤ (assessThreat d n l r hst v z e u).score →
      (assessThreat d n l r hst v z e u).score < 0.9 →
      (assessThreat d n l r hst v z e u).level = ThreatLevel.high ∧
      (assessThreat d n l r hst v z e u).action = ThreatAction.silent_dispatch) ∧
    (0.4 ≤ (assessThreat d n l r hst v z e u).score →
      (assessThreat d n l r hst v z e u).score < 0.7 →
      (assessThreat d n l r hst v z e u).level = ThreatLevel.medium ∧
      (assessThreat d n l r hst v z e u).action = ThreatAction.log) ∧
    (0.2 < (assessThreat d n l r hst v z e u).score →
      (assessThreat d n l r hst v z e u).score < 0.4 →
      (assessThreat d n l r hst v z e u).level = ThreatLevel.low ∧
      (assessThreat d n l r hst v z e u).action = ThreatAction.none) ∧
    ((assessThreat d n l r hst v z e u).score ≤ 0.2 →
      (assessThreat d n l r hst v z e u).level = ThreatLevel.safe ∧
      (assessThreat d n l r hst v z e u).action = ThreatAction.none) ∧
    ((assessThreat d n l r hst v z e u).score = 0.4 →
      (assessThreat d n l r hst v z e u).level = ThreatLevel.medium ∧
      (assessThreat d n l r hst v z e u).action = ThreatAction.log) ∧
    ((assessThreat d n l r hst v z e u).score = 0.7 →
      (assessThreat d n l r hst v z e u).level = ThreatLevel.high ∧
      (assessThreat d n l r hst v z e u).action = ThreatAction.silent_dispatch) ∧
    ((assessThreat d n l r hst v z e u).score = 0.9 →
      (assessThreat d n l r hst v z e u).level = ThreatLevel.critical ∧
      (assessThreat d n l r hst v z e u).action = ThreatAction.emergency_escalation) := by
  have hl : (assessThreat d n l r hst v z e u).level =
      (classifyScore (assessThreat d n l r hst v z e u).score).1 := rfl
  have ha : (assessThreat d n l r hst v z e u).action =
      (classifyScore (assessThreat d n l r hst v z e u).score).2 := rfl
  obtain ⟨p1, p2, p3, p4, p5⟩ := classifyScore_spec (assessThreat d n l r hst v z e u).score
  refine ⟨fun hs => ?_, fun hs hs' => ?_, fun hs hs' => ?_, fun hs hs' => ?_,
    fun hs => ?_, fun hs => ?_, fun hs => ?_, fun hs => ?_⟩
  · rw [hl, ha, p1 hs]; exact ⟨rfl, rfl⟩
  · rw [hl, ha, p2 hs hs']; exact ⟨rfl, rfl⟩
  · rw [hl, ha, p3 hs hs']; exact ⟨rfl, rfl⟩
  · rw [hl, ha, p4 hs hs']; exact ⟨rfl, rfl⟩
  · rw [hl, ha, p5 hs]; exact ⟨rfl, rfl⟩
  · rw [hl, ha, p3 (by rw [hs]) (by rw [hs]; norm_num)]; exact ⟨rfl, rfl⟩
  · rw [hl, ha, p2 (by rw [hs]) (by rw [hs]; norm_num)]; exact ⟨rfl, rfl⟩
  · rw [hl, ha, p1 (by rw [hs])]; exact ⟨rfl, rfl⟩

/-- Concrete instance of the threshold theorem: with no location, empty
history and fresh updates the score is exactly 0.2, classified safe/none. -/
theorem assessThreat_level_thresholds_witness :
    (assessThreat demoDist 0 Option.none demoRoute [] [] [] true 0).score ≤ 0.2 ∧
    (assessThreat demoDist 0 Option.none demoRoute [] [] [] true 0).level = ThreatLevel.safe ∧
    (assessThreat demoDist 0 Option.none demoRoute [] [] [] true 0).action = ThreatAction.none :=
  have hs : (assessThreat demoDist 0 Option.none demoRoute [] [] [] true 0).score ≤ 0.2 := by
    norm_num [assessThreat, calculateSuspiciousStopsScore, calculateLocationDisabledScore,
      THREAT_WEIGHTS.ROUTE_DEVIATION, THREAT_WEIGHTS.SUSPICIOUS_STOPS,
      THREAT_WEIGHTS.HIGH_RISK_ZONE, THREAT_WEIGHTS.LOCATION_DISABLED]
  ⟨hs,
   ((assessThreat_level_thresholds demoDist 0 Option.none demoRoute [] [] [] true 0).2.2.2.2.1
      hs).1,
   ((assessThreat_level_thresholds demoDist 0 Option.none demoRoute [] [] [] true 0).2.2.2.2.1
      hs).2⟩

/-- C3 counterexample: at forcedScore exactly 0.2 the force-threat-level input
yields level low, while the assessThreat threshold chain assigns level safe to
a score of 0.2 (shown both on classifyScore and on an actual assessThreat call
whose score is exactly 0.2); so the two classifications disagree there. -/
theorem forcedLevel_ne_classify_at_boundary :
    (forcedThreat 0 0.2).level = ThreatLevel.low ∧
    (classifyScore 0.2).1 = ThreatLevel.safe ∧
    (assessThreat demoDist 0 Option.none demoRoute [] [] [] true 0).score = 0.2 ∧
    (assessThreat demoDist 0 Option.none demoRoute [] [] [] true 0).level = ThreatLevel.safe ∧
    (forcedThreat 0 0.2).level ≠
      (assessThreat demoDist 0 Option.none demoRoute [] [] [] true 0).level := by
  have h1 : (forcedThreat 0 0.2).level = ThreatLevel.low := by
    norm_num [forcedThreat, forcedLevelAction]
  have h2 : (classifyScore 0.2).1 = ThreatLevel.safe := by
    norm_num [classifyScore, THREAT_THRESHOLDS.EMERGENCY_ESCALATION,
      THREAT_THRESHOLDS.SILENT_DISPATCH, THREAT_THRESHOLDS.SOFT_ALERT]
  have h3 : (assessThreat demoDist 0 Option.none demoRoute [] [] [] true 0).score = 0.2 := by
    norm_num [assessThreat, calculateSuspiciousStopsScore, calculateLocationDisabledScore,
      THREAT_WEIGHTS.ROUTE_DEVIATION, THREAT_WEIGHTS.SUSPICIOUS_STOPS,
      THREAT_WEIGHTS.HIGH_RISK_ZONE, THREAT_WEIGHTS.LOCATION_DISABLED]
  have h4 : (assessThreat demoDist 0 Option.none demoRoute [] [] [] true 0).level =
      ThreatLevel.safe := by
    have hcl : (assessThreat demoDist 0 Option.none demoRoute [] [] [] true 0).level =
        (classifyScore (assessThreat demoDist 0 Option.none demoRoute [] [] [] true 0).score).1 :=
      rfl
    rw [hcl, h3, h2]
  refine ⟨h1, h2, h3, h4, ?_⟩
  rw [h1, h4]
  decide

/-- C3 (amended): for every forcedScore in [0,1] the forced assessment's
action equals the one the assessThreat threshold chain assigns to that score,
and its level does too at every score other than exactly 0.2 (where the forced
input yields low while the chain yields safe, both with action none); each
back-filled factor equals forcedScore times that factor's weight. -/
theorem forcedThreat_matches_classify (n s : ℚ) (h0 : 0 ≤ s) (h1 : s ≤ 1) :
    (forcedThreat n s).action = (classifyScore s).2 ∧
    (s ≠ 0.2 → (forcedThreat n s).level = (classifyScore s).1) ∧
    (forcedThreat n s).factors.routeDeviation = s * THREAT_WEIGHTS.ROUTE_DEVIATION ∧
    (forcedThreat n s).factors.suspiciousStops = s * THREAT_WEIGHTS.SUSPICIOUS_STOPS ∧
    (forcedThreat n s).factors.highRiskZone = s * THREAT_WEIGHTS.HIGH_RISK_ZONE ∧
    (forcedThreat n s).factors.locationDisabled = s * THREAT_WEIGHTS.LOCATION_DISABLED := by
  refine ⟨?_, ?_, rfl, rfl, rfl, rfl⟩
  · show (forcedLevelAction s).2 = (classifyScore s).2
    unfold forcedLevelAction classifyScore THREAT_THRESHOLDS.EMERGENCY_ESCALATION
      THREAT_THRESHOLDS.SILENT_DISPATCH THREAT_THRESHOLDS.SOFT_ALERT
    split_ifs <;> first | rfl | linarith
  · intro hne
    show (forcedLevelAction s).1 = (classifyScore s).1
    unfold forcedLevelAction classifyScore THREAT_THRESHOLDS.EMERGENCY_ESCALATION
      THREAT_THRESHOLDS.SILENT_DISPATCH THREAT_THRESHOLDS.SOFT_ALERT
    split_ifs <;> first | rfl | linarith |
      (exact absurd (by linarith) hne)

/-- Concrete instance of the forced-threat refinement at forcedScore 0.5. -/
theorem forcedThreat_matches_classify_witness :
    (0:ℚ) ≤ 0.5 ∧ (0.5:ℚ) ≤ 1 ∧ (0.5:ℚ) ≠ 0.2 ∧
    (forcedThreat 0 0.5).action = (classifyScore 0.5).2 ∧
    (forcedThreat 0 0.5).level = (classifyScore 0.5).1 :=
  ⟨by norm_num, by norm_num, by norm_num,
   (forcedThreat_matches_classify 0 0.5 (by norm_num) (by norm_num)).1,
   (forcedThreat_matches_classify 0 0.5 (by norm_num) (by norm_num)).2.1 (by norm_num)⟩

/-- C6 counterexample: the end-ride handler overwrites an `emergency` status
with `completed` whenever its reason is not `"emergency"` (the default), so
`emergency` is not absorbing under every handler step. -/
theorem endRide_overwrites_emergency :
    stepStatus (SessionOp.endRide "completed") SessionStatus.emergency =
      SessionStatus.completed ∧
    SessionStatus.completed ≠ SessionStatus.emergency := by
  refine ⟨?_, by decide⟩
  simp [stepStatus]

/-- The handler steps that cannot clear an `emergency` status: everything
except an end-ride with a non-`"emergency"` reason and a confirm-route that
finds its route. -/
def preservesEmergency : SessionOp → Bool
  | SessionOp.endRide reason => reason == "emergency"
  | SessionOp.confirmRoute routeFound => !routeFound
  | _ => true

/-- C6 (amended): once a session is in `emergency`, every monitoring handler
step (location updates, location-disabled, network-loss, manual emergency,
force-threat-level, get-session, failed confirm-route, end-ride with reason
`"emergency"`) leaves it in `emergency`; only an end-ride with another reason
(which sets `completed`) or a successful confirm-route (which sets `active`)
changes it. -/
theorem emergency_absorbing (ops : List SessionOp)
    (h : ∀ op ∈ ops, preservesEmergency op = true) :
    runOps ops SessionStatus.emergency = SessionStatus.emergency := by
  induction ops with
  | nil => rfl
  | cons op rest ih =>
    have hop : preservesEmergency op = true := h op (List.mem_cons_self op rest)
    have hrest : ∀ o ∈ rest, preservesEmergency o = true :=
      fun o ho => h o (List.mem_cons_of_mem _ ho)
    have hstep : stepStatus op SessionStatus.emergency = SessionStatus.emergency := by
      cases op with
      | confirmRoute routeFound =>
        simp only [preservesEmergency, Bool.not_eq_true'] at hop
        simp [stepStatus, hop]
      | getSession => rfl
      | endRide reason =>
        simp only [preservesEmergency] at hop
        simp [stepStatus, hop]
      | updateLocation act => simp only [stepStatus]; split <;> rfl
      | locationDisabledEvent score => simp only [stepStatus]; split <;> rfl
      | networkLoss => rfl
      | manualEmergency => rfl
      | forceThreatLevel forcedScore => simp only [stepStatus]; split <;> [rfl; split <;> rfl]
    show runOps rest (stepStatus op SessionStatus.emergency) = SessionStatus.emergency
    rw [hstep]
    exact ih hrest

/-- Concrete instance of emergency absorption across a sequence of monitoring
steps (network loss, a low-threat location update, an emergency-reason
end-ride, a forced maximal threat). -/
theorem emergency_absorbing_witness :
    runOps [SessionOp.networkLoss, SessionOp.updateLocation ThreatAction.log,
      SessionOp.endRide "emergency", SessionOp.forceThreatLevel 1]
      SessionStatus.emergency = SessionStatus.emergency :=
  emergency_absorbing
    [SessionOp.networkLoss, SessionOp.updateLocation ThreatAction.log,
      SessionOp.endRide "emergency", SessionOp.forceThreatLevel 1]
    (by decide)

/-- C10: a consecutive location pair with a zero or negative timestamp
difference gets speed 0 (no division is attempted), so the scan treats the
pair as stopped and extends the current stop run by that time difference
instead of terminating it. -/
theorem stopScan_nonpositive_timeDiff (d : Location → Location → ℚ)
    (prev curr : Location) (rest : List Location) (count : ℕ) (dur : ℚ)
    (h : curr.timestamp - prev.timestamp ≤ 0) :
    speedOf d prev curr = 0 ∧
    stopScan d count dur (prev :: curr :: rest) =
      stopScan d count (dur + (curr.timestamp - prev.timestamp)) (curr :: rest) := by
  have hng : ¬ (curr.timestamp - prev.timestamp > 0) := not_lt.2 h
  have hs : speedOf d prev curr = 0 := by simp [speedOf, hng]
  refine ⟨hs, ?_⟩
  simp only [stopScan, hs]
  norm_num

/-- Concrete instance of the non-positive time difference rule: two samples
with equal timestamps. -/
theorem stopScan_nonpositive_timeDiff_witness :
    ({ lat := 0, lng := 0, timestamp := 7, source := LocationSource.gps } : Location).timestamp -
      ({ lat := 0, lng := 0, timestamp := 7, source := LocationSource.gps } : Location).timestamp ≤ 0 ∧
    speedOf demoDist
      { lat := 0, lng := 0, timestamp := 7, source := LocationSource.gps }
      { lat := 0, lng := 0, timestamp := 7, source := LocationSource.gps } = 0 :=
  ⟨by norm_num,
   (stopScan_nonpositive_timeDiff demoDist
      { lat := 0, lng := 0, timestamp := 7, source := LocationSource.gps }
      { lat := 0, lng := 0, timestamp := 7, source := LocationSource.gps }
      [] 0 0 (by norm_num)).1⟩

/-- A left fold by `min` is bounded by its initial accumulator. -/
theorem foldl_min_le_init (l : List (WithTop ℚ)) (a : WithTop ℚ) :
    l.foldl min a ≤ a := by
  induction l generalizing a with
  | nil => exact le_refl a
  | cons y ys ih => exact le_trans (ih (min a y)) (min_le_left a y)

/-- A left fold by `min` is bounded by every list element. -/
theorem foldl_min_le_mem {l : List (WithTop ℚ)} {x : WithTop ℚ} (a : WithTop ℚ)
    (hx : x ∈ l) : l.foldl min a ≤ x := by
  induction l generalizing a with
  | nil => exact absurd hx (List.not_mem_nil x)
  | cons y ys ih =>
    rcases List.mem_cons.1 hx with hxy | hmem
    · subst hxy
      exact le_trans (foldl_min_le_init ys (min a x)) (min_le_right a x)
    · exact ih (min a y) hmem

/-- C9: on a zero-length segment (equal endpoint coordinates) the projection
computation performs no division — `lenSq = 0` keeps `param = -1` — and the
result is the `dist`-distance from the point to that endpoint; consequently
`distanceFromRoute` over any route with at least one waypoint (in particular
one with consecutive duplicate waypoints) is a finite rational, never the
`Infinity` sentinel. -/
theorem pointToLineSegmentDistance_degenerate (d : Location → Location → ℚ)
    (p a b : Location) (hlat : a.lat = b.lat) (hlng : a.lng = b.lng)
    (hco : ∀ x y y' : Location, y.lat = y'.lat → y.lng = y'.lng → d x y = d x y') :
    pointToLineSegmentDistance d p a b =
      d p { lat := a.lat, lng := a.lng, timestamp := 0, source := LocationSource.gps } ∧
    pointToLineSegmentDistance d p a b = d p a ∧
    ∀ r : Route, r.waypoints ≠ [] →
      ∃ q : ℚ, distanceFromRoute d p r = (q : WithTop ℚ) := by
  have hC : b.lat - a.lat = 0 := sub_eq_zero.mpr hlat.symm
  have hD : b.lng - a.lng = 0 := sub_eq_zero.mpr hlng.symm
  have h1 : pointToLineSegmentDistance d p a b =
      d p { lat := a.lat, lng := a.lng, timestamp := 0, source := LocationSource.gps } := by
    simp only [pointToLineSegmentDistance, hC, hD]
    norm_num
  refine ⟨h1, h1.trans (hco p _ a rfl rfl), ?_⟩
  intro r hr
  obtain ⟨w, ws, hw⟩ : ∃ w ws, r.waypoints = w :: ws := by
    cases hcase : r.waypoints with
    | nil => exact absurd hcase hr
    | cons w ws => exact ⟨w, ws, rfl⟩
  have hmem : ((d p w : ℚ) : WithTop ℚ) ∈
      (r.waypoints.map fun v => ((d p v : ℚ) : WithTop ℚ)) ++
        ((routeSegments r.waypoints).map fun s =>
          ((pointToLineSegmentDistance d p s.1 s.2 : ℚ) : WithTop ℚ)) := by
    refine List.mem_append_left _ (List.mem_map.2 ⟨w, ?_, rfl⟩)
    rw [hw]
    exact List.mem_cons_self w ws
  have hle : distanceFromRoute d p r ≤ ((d p w : ℚ) : WithTop ℚ) :=
    foldl_min_le_mem ⊤ hmem
  have hlt : distanceFromRoute d p r < ⊤ :=
    lt_of_le_of_lt hle (WithTop.coe_lt_top _)
  obtain ⟨q, hq⟩ := WithTop.ne_top_iff_exists.1 (ne_of_lt hlt)
  exact ⟨q, hq.symm⟩

/-- A location value used to instantiate theorems at concrete inputs. -/
def demoLoc : Location :=
  { lat := 0, lng := 0, timestamp := 0, source := LocationSource.gps }

/-- A second location value used to instantiate theorems at concrete inputs. -/
def demoPoint : Location :=
  { lat := 1, lng := 0, timestamp := 0, source := LocationSource.gps }

/-- A route whose waypoint list repeats the same point, giving a zero-length
segment. -/
def dupRoute : Route :=
  { id := "route-dup", waypoints := [demoLoc, demoLoc], safetyScore := 0,
    distance := 0, estimatedDuration := 0, highRiskZones := [] }

/-- Concrete instance of the degenerate-segment theorem on a route with two
identical waypoints. -/
theorem pointToLineSegmentDistance_degenerate_witness :
    pointToLineSegmentDistance demoDist demoPoint demoLoc demoLoc =
      demoDist demoPoint demoLoc ∧
    ∃ q : ℚ, distanceFromRoute demoDist demoPoint dupRoute = (q : WithTop ℚ) :=
  ⟨(pointToLineSegmentDistance_degenerate demoDist demoPoint demoLoc demoLoc rfl rfl
      (fun x y y' h1 h2 => by simp [demoDist, h1, h2])).2.1,
   (pointToLineSegmentDistance_degenerate demoDist demoPoint demoLoc demoLoc rfl rfl
      (fun x y y' h1 h2 => by simp [demoDist, h1, h2])).2.2 dupRoute (by simp [dupRoute])⟩

/-- C8: the three rejection rules fire in order with weight 0 and the first
failing rule's reason — low trust, then more than 5 same-reporter reports in
24 h, then more than 10 reports within 500 m in 1 h; a report passing all
three is valid with weight MAX_WEIGHT·decay·trust when at least 3 verified
same-type reports lie within 500 m and MAX_WEIGHT·0.3·decay·trust otherwise,
where decay = max(0, 1 − ageDays/30); in particular trust 0.2 is rejected
with weight 0. -/
theorem validateCommunityReport_rules (d : Location → Location → ℚ) (now : ℚ)
    (report : CommunityReport) (existing : List CommunityReport) :
    (report.reporterTrustScore < 0.3 →
      validateCommunityReport d now report existing =
        { valid := false, weight := 0, reason := some "Reporter trust score too low" }) ∧
    (0.3 ≤ report.reporterTrustScore →
      5 < (existing.filter fun r =>
            r.reporterId == report.reporterId && decide (now - r.timestamp < 86400000)).length →
      validateCommunityReport d now report existing =
        { valid := false, weight := 0, reason := some "Suspicious reporting frequency" }) ∧
    (0.3 ≤ report.reporterTrustScore →
      (existing.filter fun r =>
        r.reporterId == report.reporterId && decide (now - r.timestamp < 86400000)).length ≤ 5 →
      10 < ((existing.filter fun r => decide (d r.location report.location < 500)).filter
              fun r => decide (now - r.timestamp < 3600000)).length →
      validateCommunityReport d now report existing =
        { valid := false, weight := 0, reason := some "Possible coordinated manipulation" }) ∧
    (0.3 ≤ report.reporterTrustScore →
      (existing.filter fun r =>
        r.reporterId == report.reporterId && decide (now - r.timestamp < 86400000)).length ≤ 5 →
      ((existing.filter fun r => decide (d r.location report.location < 500)).filter
          fun r => decide (now - r.timestamp < 3600000)).length ≤ 10 →
      validateCommunityReport d now report existing =
        { valid := true,
          weight :=
            if ((existing.filter fun r => decide (d r.location report.location < 500)).filter
                  fun r => r.type == report.type && r.isVerified).length ≥ 3 then
              0.1 * max 0 (1 - (now - report.timestamp) / 86400000 / 30) *
                report.reporterTrustScore
            else
              0.1 * 0.3 * max 0 (1 - (now - report.timestamp) / 86400000 / 30) *
                report.reporterTrustScore,
          reason := Option.none }) ∧
    (report.reporterTrustScore = 0.2 →
      (validateCommunityReport d now report existing).valid = false ∧
      (validateCommunityReport d now report existing).weight = 0) := by
  simp only [validateCommunityReport, COMMUNITY_SETTINGS.MIN_TRUST_SCORE,
    COMMUNITY_SETTINGS.MAX_WEIGHT, COMMUNITY_SETTINGS.MIN_CONSENSUS,
    COMMUNITY_SETTINGS.DECAY_DAYS]
  refine ⟨fun h => ?_, fun h h2 => ?_, fun h h2 h3 => ?_, fun h h2 h3 => ?_, fun h => ?_⟩ <;>
    split_ifs <;>
      first
        | rfl
        | exact ⟨rfl, rfl⟩
        | linarith
        | omega

/-- A community report with trust score 0.2, below the minimum. -/
def demoReport : CommunityReport :=
  { id := "cr-1", reporterId := "u-1", reporterTrustScore := 0.2, location := demoLoc,
    type := ReportType.unsafe_area, description := "poor lighting", timestamp := 0,
    verificationCount := 0, isVerified := false }

/-- Concrete instance of the validation rules: a trust-0.2 report is rejected
with weight 0. -/
theorem validateCommunityReport_rules_witness :
    (validateCommunityReport demoDist 0 demoReport []).valid = false ∧
    (validateCommunityReport demoDist 0 demoReport []).weight = 0 :=
  (validateCommunityReport_rules demoDist 0 demoReport []).2.2.2.2 rfl

/-- The route deviation factor stays in [0,1] whenever the recorded deviation
durations are non-negative. -/
theorem calculateRouteDeviationScore_bounds (d : Location → Location → ℚ) (now : ℚ)
    (loc : Location) (route : Route) (dev : List DeviationPoint)
    (hdur : ∀ p ∈ dev, 0 ≤ p.duration) :
    0 ≤ calculateRouteDeviationScore d now loc route dev ∧
    calculateRouteDeviationScore d now loc route dev ≤ 1 := by
  simp only [calculateRouteDeviationScore]
  split_ifs with hcd
  · norm_num
  · have hds : 0 ≤ distanceScoreOf (distanceFromRoute d loc route) ∧
        distanceScoreOf (distanceFromRoute d loc route) ≤ 1 := by
      rcases eq_or_ne (distanceFromRoute d loc route) ⊤ with htop | hne
      · rw [htop]
        exact ⟨by norm_num [distanceScoreOf], by norm_num [distanceScoreOf]⟩
      · obtain ⟨q, hq⟩ := WithTop.ne_top_iff_exists.1 hne
        rw [← hq] at hcd ⊢
        have hq100 : (100 : ℚ) < q := by
          have hlt := not_le.1 hcd
          rw [show ((SAFE_CORRIDOR_RADIUS : ℚ) : WithTop ℚ) = ((100 : ℚ) : WithTop ℚ) from rfl]
            at hlt
          exact_mod_cast hlt
        have hq0 : 0 ≤ q / 1000 := div_nonneg (by linarith) (by norm_num)
        refine ⟨?_, ?_⟩
        · simpa [distanceScoreOf] using le_min hq0 (by norm_num : (0:ℚ) ≤ 1)
        · simpa [distanceScoreOf] using min_le_right (q / 1000) 1
    have hts : 0 ≤ ((dev.filter fun p => decide (now - p.timestamp < 300000)).map
        fun p => p.duration).sum := by
      apply List.sum_nonneg
      intro x hx
      obtain ⟨p, hp, rfl⟩ := List.mem_map.1 hx
      exact hdur p (List.mem_filter.1 hp).1
    have htmin : 0 ≤ min (((dev.filter fun p => decide (now - p.timestamp < 300000)).map
        fun p => p.duration).sum / 300000) 1 :=
      le_min (by positivity) (by norm_num)
    have htmax : min (((dev.filter fun p => decide (now - p.timestamp < 300000)).map
        fun p => p.duration).sum / 300000) 1 ≤ 1 := min_le_right _ _
    constructor
    · refine le_min ?_ (by norm_num)
      have := hds.1
      nlinarith [htmin]
    · exact min_le_right _ _

/-- The suspicious stops factor stays in [0,1]. -/
theorem calculateSuspiciousStopsScore_bounds (d : Location → Location → ℚ)
    (hist : List Location) :
    0 ≤ calculateSuspiciousStopsScore d hist ∧
    calculateSuspiciousStopsScore d hist ≤ 1 := by
  simp only [calculateSuspiciousStopsScore]
  split_ifs <;> norm_num <;> positivity

/-- One risk step keeps the accumulator in [0,1] when the zone's risk level
is in [0,1]. -/
theorem riskStep_bounds (d : Location → Location → ℚ) (loc : Location)
    (acc : ℚ) (z : HighRiskZone) (hacc0 : 0 ≤ acc) (hacc1 : acc ≤ 1)
    (hz0 : 0 ≤ z.riskLevel) (hz1 : z.riskLevel ≤ 1) :
    0 ≤ riskStep d loc acc z ∧ riskStep d loc acc z ≤ 1 := by
  simp only [riskStep]
  split_ifs with h1 h2
  · exact ⟨le_max_of_le_left hacc0, max_le hacc1 hz1⟩
  · have hrad : 0 < z.radius := by
      by_contra hr
      push_neg at hr
      have : d loc z.center ≤ z.radius := le_trans h2 (by linarith)
      exact h1 this
    have hnum : 0 ≤ d loc z.center - z.radius := by
      have := not_le.1 h1
      linarith
    have hfrac1 : (d loc z.center - z.radius) / z.radius ≤ 1 := by
      rw [div_le_one hrad]
      linarith
    have hfrac0 : 0 ≤ (d loc z.center - z.radius) / z.radius :=
      div_nonneg hnum hrad.le
    have hpf0 : 0 ≤ 1 - (d loc z.center - z.radius) / z.radius := by linarith
    have hpf1 : 1 - (d loc z.center - z.radius) / z.radius ≤ 1 := by linarith
    constructor
    · exact le_max_of_le_left hacc0
    · refine max_le hacc1 ?_
      nlinarith
  · exact ⟨hacc0, hacc1⟩

/-- Folding risk steps over zones with risk levels in [0,1] keeps the
accumulator in [0,1]. -/
theorem riskFold_bounds (d : Location → Location → ℚ) (loc : Location) :
    ∀ (zones : List HighRiskZone) (acc : ℚ), 0 ≤ acc → acc ≤ 1 →
    (∀ z ∈ zones, 0 ≤ z.riskLevel ∧ z.riskLevel ≤ 1) →
    0 ≤ zones.foldl (riskStep d loc) acc ∧ zones.foldl (riskStep d loc) acc ≤ 1 := by
  intro zones
  induction zones with
  | nil => exact fun acc h0 h1 _ => ⟨h0, h1⟩
  | cons z zs ih =>
    intro acc h0 h1 hz
    have hzz := hz z (List.mem_cons_self z zs)
    have hstep := riskStep_bounds d loc acc z h0 h1 hzz.1 hzz.2
    exact ih (riskStep d loc acc z) hstep.1 hstep.2
      fun w hw => hz w (List.mem_cons_of_mem _ hw)

/-- The high-risk zone factor stays in [0,1] when every zone's risk level
is in [0,1]. -/
theorem calculateHighRiskZoneScore_bounds (d : Location → Location → ℚ)
    (loc : Location) (zones : List HighRiskZone)
    (hz : ∀ z ∈ zones, 0 ≤ z.riskLevel ∧ z.riskLevel ≤ 1) :
    0 ≤ calculateHighRiskZoneScore d loc zones ∧
    calculateHighRiskZoneScore d loc zones ≤ 1 :=
  riskFold_bounds d loc zones 0 (le_refl 0) (by norm_num) hz

/-- The location disabled factor stays in [0,1]. -/
theorem calculateLocationDisabledScore_bounds (e : Bool) (l : Option Location)
    (t : ℚ) :
    0 ≤ calculateLocationDisabledScore e l t ∧
    calculateLocationDisabledScore e l t ≤ 1 := by
  simp only [calculateLocationDisabledScore]
  split_ifs <;> norm_num

/-- C1: for well-formed inputs (zone risk levels in [0,1], non-negative
deviation durations) the assessment's score equals the weighted sum
0.4·routeDeviation + 0.3·suspiciousStops + 0.2·highRiskZone +
0.1·locationDisabled over the returned factors, and it lies in [0,1]. -/
theorem assessThreat_score_weighted_and_bounded (d : Location → Location → ℚ)
    (n : ℚ) (l : Option Location) (r : Route) (hist : List Location)
    (dev : List DeviationPoint) (zones : List HighRiskZone) (e : Bool) (u : ℚ)
    (hz : ∀ z ∈ zones, 0 ≤ z.riskLevel ∧ z.riskLevel ≤ 1)
    (hdur : ∀ p ∈ dev, 0 ≤ p.duration) :
    (assessThreat d n l r hist dev zones e u).score =
      0.4 * (assessThreat d n l r hist dev zones e u).factors.routeDeviation +
      0.3 * (assessThreat d n l r hist dev zones e u).factors.suspiciousStops +
      0.2 * (assessThreat d n l r hist dev zones e u).factors.highRiskZone +
      0.1 * (assessThreat d n l r hist dev zones e u).factors.locationDisabled ∧
    0 ≤ (assessThreat d n l r hist dev zones e u).score ∧
    (assessThreat d n l r hist dev zones e u).score ≤ 1 := by
  have hsc : (assessThreat d n l r hist dev zones e u).score =
      (assessThreat d n l r hist dev zones e u).factors.routeDeviation *
        THREAT_WEIGHTS.ROUTE_DEVIATION +
      (assessThreat d n l r hist dev zones e u).factors.suspiciousStops *
        THREAT_WEIGHTS.SUSPICIOUS_STOPS +
      (assessThreat d n l r hist dev zones e u).factors.highRiskZone *
        THREAT_WEIGHTS.HIGH_RISK_ZONE +
      (assessThreat d n l r hist dev zones e u).factors.locationDisabled *
        THREAT_WEIGHTS.LOCATION_DISABLED := rfl
  have h1 : 0 ≤ (assessThreat d n l r hist dev zones e u).factors.routeDeviation ∧
      (assessThreat d n l r hist dev zones e u).factors.routeDeviation ≤ 1 := by
    cases l with
    | none => exact ⟨by norm_num [assessThreat], by norm_num [assessThreat]⟩
    | some loc => exact calculateRouteDeviationScore_bounds d n loc r dev hdur
  have h2 : 0 ≤ (assessThreat d n l r hist dev zones e u).factors.suspiciousStops ∧
      (assessThreat d n l r hist dev zones e u).factors.suspiciousStops ≤ 1 :=
    calculateSuspiciousStopsScore_bounds d hist
  have h3 : 0 ≤ (assessThreat d n l r hist dev zones e u).factors.highRiskZone ∧
      (assessThreat d n l r hist dev zones e u).factors.highRiskZone ≤ 1 := by
    cases l with
    | none => exact ⟨by norm_num [assessThreat], by norm_num [assessThreat]⟩
    | some loc => exact calculateHighRiskZoneScore_bounds d loc zones hz
  have h4 : 0 ≤ (assessThreat d n l r hist dev zones e u).factors.locationDisabled ∧
      (assessThreat d n l r hist dev zones e u).factors.locationDisabled ≤ 1 :=
    calculateLocationDisabledScore_bounds e l (n - u)
  refine ⟨?_, ?_, ?_⟩
  · rw [hsc]
    unfold THREAT_WEIGHTS.ROUTE_DEVIATION THREAT_WEIGHTS.SUSPICIOUS_STOPS
      THREAT_WEIGHTS.HIGH_RISK_ZONE THREAT_WEIGHTS.LOCATION_DISABLED
    ring
  · rw [hsc]
    unfold THREAT_WEIGHTS.ROUTE_DEVIATION THREAT_WEIGHTS.SUSPICIOUS_STOPS
      THREAT_WEIGHTS.HIGH_RISK_ZONE THREAT_WEIGHTS.LOCATION_DISABLED
    nlinarith [h1.1, h2.1, h3.1, h4.1]
  · rw [hsc]
    unfold THREAT_WEIGHTS.ROUTE_DEVIATION THREAT_WEIGHTS.SUSPICIOUS_STOPS
      THREAT_WEIGHTS.HIGH_RISK_ZONE THREAT_WEIGHTS.LOCATION_DISABLED
    nlinarith [h1.2, h2.2, h3.2, h4.2]

/-- Concrete instance of the weighted-score theorem on empty zone and
deviation lists. -/
theorem assessThreat_score_weighted_and_bounded_witness :
    0 ≤ (assessThreat demoDist 0 (some demoPoint) dupRoute [] [] [] true 0).score ∧
    (assessThreat demoDist 0 (some demoPoint) dupRoute [] [] [] true 0).score ≤ 1 :=
  ⟨(assessThreat_score_weighted_and_bounded demoDist 0 (some demoPoint) dupRoute [] [] [] true 0
      (fun z hz => absurd hz (List.not_mem_nil z))
      (fun p hp => absurd hp (List.not_mem_nil p))).2.1,
   (assessThreat_score_weighted_and_bounded demoDist 0 (some demoPoint) dupRoute [] [] [] true 0
      (fun z hz => absurd hz (List.not_mem_nil z))
      (fun p hp => absurd hp (List.not_mem_nil p))).2.2⟩

/-- The distance score is capped at 1 for every distance, including the
`Infinity` sentinel. -/
theorem distanceScoreOf_le_one (x : WithTop ℚ) : distanceScoreOf x ≤ 1 := by
  induction x using WithTop.recTopCoe with
  | top => norm_num [distanceScoreOf]
  | coe q => simpa [distanceScoreOf] using min_le_right (q / 1000) 1

/-- On a single-waypoint route the distance from route is the distance to
that waypoint. -/
theorem distanceFromRoute_single (d : Location → Location → ℚ) (p w : Location)
    (r : Route) (hw : r.waypoints = [w]) :
    distanceFromRoute d p r = ((d p w : ℚ) : WithTop ℚ) := by
  simp only [distanceFromRoute, hw, routeSegments, List.map_cons, List.map_nil,
    List.nil_append, List.append_nil, List.foldl_cons, List.foldl_nil]
  exact min_eq_right le_top

/-- A simple concrete distance oracle reading off latitude differences. -/
def latDist (p q : Location) : ℚ := |p.lat - q.lat|

/-- A single-waypoint route anchored at the origin. -/
def capRoute : Route :=
  { id := "route-cap", waypoints := [demoLoc], safetyScore := 0, distance := 0,
    estimatedDuration := 0, highRiskZones := [] }

/-- A point 1500 units from `capRoute` under `latDist`. -/
def p1500 : Location := { lat := 1500, lng := 0, timestamp := 0, source := LocationSource.gps }

/-- A point 2000 units from `capRoute` under `latDist`. -/
def p2000 : Location := { lat := 2000, lng := 0, timestamp := 0, source := LocationSource.gps }

/-- A point 500 units from `capRoute` under `latDist`. -/
def p500 : Location := { lat := 500, lng := 0, timestamp := 0, source := LocationSource.gps }

/-- A point 800 units from `capRoute` under `latDist`. -/
def p800 : Location := { lat := 800, lng := 0, timestamp := 0, source := LocationSource.gps }

/-- C4 counterexample: two locations 1500 and 2000 from the route — both far
outside the 100 corridor and strictly ordered — receive the same route
deviation factor, because the distance score saturates at the 1 km cap; so
strict monotonicity above the corridor fails as stated. -/
theorem routeDeviation_not_strictly_monotone :
    (SAFE_CORRIDOR_RADIUS : WithTop ℚ) < distanceFromRoute latDist p1500 capRoute ∧
    distanceFromRoute latDist p1500 capRoute < distanceFromRoute latDist p2000 capRoute ∧
    calculateRouteDeviationScore latDist 0 p1500 capRoute [] =
      calculateRouteDeviationScore latDist 0 p2000 capRoute [] := by
  have e1 : distanceFromRoute latDist p1500 capRoute = ((1500 : ℚ) : WithTop ℚ) := by
    rw [distanceFromRoute_single latDist p1500 demoLoc capRoute rfl]
    norm_num [latDist, p1500, demoLoc]
  have e2 : distanceFromRoute latDist p2000 capRoute = ((2000 : ℚ) : WithTop ℚ) := by
    rw [distanceFromRoute_single latDist p2000 demoLoc capRoute rfl]
    norm_num [latDist, p2000, demoLoc]
  have dsc1 : distanceScoreOf ((1500 : ℚ) : WithTop ℚ) = 1 := by
    rw [show distanceScoreOf ((1500 : ℚ) : WithTop ℚ) = min ((1500 : ℚ) / 1000) 1 from rfl]
    rw [min_eq_right (by norm_num)]
  have dsc2 : distanceScoreOf ((2000 : ℚ) : WithTop ℚ) = 1 := by
    rw [show distanceScoreOf ((2000 : ℚ) : WithTop ℚ) = min ((2000 : ℚ) / 1000) 1 from rfl]
    rw [min_eq_right (by norm_num)]
  have s1 : calculateRouteDeviationScore latDist 0 p1500 capRoute [] = 0.6 := by
    simp only [calculateRouteDeviationScore, e1]
    rw [if_neg (by rw [WithTop.coe_le_coe]; norm_num [SAFE_CORRIDOR_RADIUS])]
    rw [dsc1]
    norm_num [min_def]
  have s2 : calculateRouteDeviationScore latDist 0 p2000 capRoute [] = 0.6 := by
    simp only [calculateRouteDeviationScore, e2]
    rw [if_neg (by rw [WithTop.coe_le_coe]; norm_num [SAFE_CORRIDOR_RADIUS])]
    rw [dsc2]
    norm_num [min_def]
  refine ⟨?_, ?_, s1.trans s2.symm⟩
  · rw [e1, show ((SAFE_CORRIDOR_RADIUS : ℚ) : WithTop ℚ) = ((100 : ℚ) : WithTop ℚ) from rfl,
      WithTop.coe_lt_coe]
    norm_num
  · rw [e1, e2, WithTop.coe_lt_coe]
    norm_num

/-- C4 (amended): for a fixed deviation history and evaluation time, among two
locations beyond the 100 m corridor the strictly farther one gets a strictly
greater route deviation factor, provided the smaller distance is below the
1 km normalization cap (at or beyond 1 km the distance score saturates and
the factors coincide, as the counterexample shows). -/
theorem calculateRouteDeviationScore_strict_mono (d : Location → Location → ℚ)
    (now : ℚ) (route : Route) (dev : List DeviationPoint) (p1 p2 : Location)
    (h100 : (SAFE_CORRIDOR_RADIUS : WithTop ℚ) < distanceFromRoute d p1 route)
    (hlt : distanceFromRoute d p1 route < distanceFromRoute d p2 route)
    (hcap : distanceFromRoute d p1 route < ((1000 : ℚ) : WithTop ℚ)) :
    calculateRouteDeviationScore d now p1 route dev <
      calculateRouteDeviationScore d now p2 route dev := by
  obtain ⟨q1, hq1⟩ := WithTop.ne_top_iff_exists.1 (ne_top_of_lt hcap)
  have hq1cap : q1 < 1000 := by
    rw [← hq1] at hcap
    exact_mod_cast hcap
  have hq1100 : (100 : ℚ) < q1 := by
    rw [← hq1, show ((SAFE_CORRIDOR_RADIUS : ℚ) : WithTop ℚ) = ((100 : ℚ) : WithTop ℚ) from rfl,
      WithTop.coe_lt_coe] at h100
    exact h100
  have hds1 : distanceScoreOf (distanceFromRoute d p1 route) = q1 / 1000 := by
    rw [← hq1]
    simp only [distanceScoreOf, WithTop.recTopCoe_coe]
    exact min_eq_left (by linarith [hq1cap])
  have hds : distanceScoreOf (distanceFromRoute d p1 route) <
      distanceScoreOf (distanceFromRoute d p2 route) := by
    rcases eq_or_ne (distanceFromRoute d p2 route) ⊤ with htop | hne
    · rw [hds1, htop]
      simp only [distanceScoreOf, WithTop.recTopCoe_top]
      linarith
    · obtain ⟨q2, hq2⟩ := WithTop.ne_top_iff_exists.1 hne
      have hqlt : q1 < q2 := by
        rw [← hq1, ← hq2, WithTop.coe_lt_coe] at hlt
        exact hlt
      rw [hds1, ← hq2]
      simp only [distanceScoreOf, WithTop.recTopCoe_coe]
      exact lt_min (by linarith) (by linarith)
  have hds2le : distanceScoreOf (distanceFromRoute d p2 route) ≤ 1 :=
    distanceScoreOf_le_one _
  have hnotle1 : ¬ distanceFromRoute d p1 route ≤ (SAFE_CORRIDOR_RADIUS : WithTop ℚ) :=
    not_le.2 h100
  have hnotle2 : ¬ distanceFromRoute d p2 route ≤ (SAFE_CORRIDOR_RADIUS : WithTop ℚ) :=
    not_le.2 (lt_trans h100 hlt)
  simp only [calculateRouteDeviationScore, if_neg hnotle1, if_neg hnotle2]
  have hts : min (((dev.filter fun p => decide (now - p.timestamp < 300000)).map
      fun p => p.duration).sum / 300000) 1 ≤ 1 := min_le_right _ _
  set ts := min (((dev.filter fun p => decide (now - p.timestamp < 300000)).map
      fun p => p.duration).sum / 300000) 1 with hts_def
  have hb2 : distanceScoreOf (distanceFromRoute d p2 route) * 0.6 + ts * 0.4 ≤ 1 := by
    nlinarith
  have hb1 : distanceScoreOf (distanceFromRoute d p1 route) * 0.6 + ts * 0.4 <
      distanceScoreOf (distanceFromRoute d p2 route) * 0.6 + ts * 0.4 := by
    nlinarith
  rw [min_eq_left (le_trans hb1.le hb2), min_eq_left hb2]
  exact hb1

/-- Concrete instance of strict monotonicity below the cap: distances 500 and
800 give factors 0.3 < 0.48. -/
theorem calculateRouteDeviationScore_strict_mono_witness :
    (SAFE_CORRIDOR_RADIUS : WithTop ℚ) < distanceFromRoute latDist p500 capRoute ∧
    distanceFromRoute latDist p500 capRoute < distanceFromRoute latDist p800 capRoute ∧
    distanceFromRoute latDist p500 capRoute < ((1000 : ℚ) : WithTop ℚ) ∧
    calculateRouteDeviationScore latDist 0 p500 capRoute [] <
      calculateRouteDeviationScore latDist 0 p800 capRoute [] := by
  have e1 : distanceFromRoute latDist p500 capRoute = ((500 : ℚ) : WithTop ℚ) := by
    rw [distanceFromRoute_single latDist p500 demoLoc capRoute rfl]
    norm_num [latDist, p500, demoLoc]
  have e2 : distanceFromRoute latDist p800 capRoute = ((800 : ℚ) : WithTop ℚ) := by
    rw [distanceFromRoute_single latDist p800 demoLoc capRoute rfl]
    norm_num [latDist, p800, demoLoc]
  have h1 : (SAFE_CORRIDOR_RADIUS : WithTop ℚ) < distanceFromRoute latDist p500 capRoute := by
    rw [e1, show ((SAFE_CORRIDOR_RADIUS : ℚ) : WithTop ℚ) = ((100 : ℚ) : WithTop ℚ) from rfl,
      WithTop.coe_lt_coe]
    norm_num
  have h2 : distanceFromRoute latDist p500 capRoute <
      distanceFromRoute latDist p800 capRoute := by
    rw [e1, e2, WithTop.coe_lt_coe]
    norm_num
  have h3 : distanceFromRoute latDist p500 capRoute < ((1000 : ℚ) : WithTop ℚ) := by
    rw [e1, WithTop.coe_lt_coe]
    norm_num
  exact ⟨h1, h2, h3,
    calculateRouteDeviationScore_strict_mono latDist 0 capRoute [] p500 p800 h1 h2 h3⟩

/-- The notification loop never changes contact ids or their order. -/
theorem notifyContacts_map_id (f : EmergencyContact → Bool) (n : ℚ) :
    ∀ l : List EmergencyContact,
      (notifyContacts f n l).contacts.map EmergencyContact.id =
        l.map EmergencyContact.id := by
  intro l
  induction l with
  | nil => rfl
  | cons a rest ih =>
    simp only [notifyContacts]
    by_cases hg : (!a.notified && (a.email != "")) = true
    · rw [if_pos hg]
      by_cases he : f a = true
      · rw [if_pos he]
        simpa using ih
      · rw [if_neg he]
        simpa using ih
    · rw [if_neg hg]
      simpa using ih

/-- Every contact recorded as an attempted send was unnotified with a
non-empty email at loop entry. -/
theorem notifyContacts_attempted_spec (f : EmergencyContact → Bool) (n : ℚ) :
    ∀ l : List EmergencyContact, ∀ c ∈ (notifyContacts f n l).attempted,
      c.notified = false ∧ c.email ≠ "" := by
  intro l
  induction l with
  | nil => intro c hc; simp [notifyContacts] at hc
  | cons a rest ih =>
    intro c hc
    simp only [notifyContacts] at hc
    by_cases hg : (!a.notified && (a.email != "")) = true
    · have hga : a.notified = false ∧ a.email ≠ "" := by
        simpa [Bool.and_eq_true, Bool.not_eq_true', bne_iff_ne] using hg
      rw [if_pos hg] at hc
      by_cases he : f a = true
      · rw [if_pos he] at hc
        rcases List.mem_cons.1 hc with rfl | hmem
        · exact hga
        · exact ih c hmem
      · rw [if_neg he] at hc
        rcases List.mem_cons.1 hc with rfl | hmem
        · exact hga
        · exact ih c hmem
    · rw [if_neg hg] at hc
      exact ih c hc

/-- Every contact appended to the evidence packet's notified list is the
notified-flagged update of an unnotified input contact, and is itself present
in the updated contact list. -/
theorem notifyContacts_packet_spec (f : EmergencyContact → Bool) (n : ℚ) :
    ∀ l : List EmergencyContact, ∀ c ∈ (notifyContacts f n l).packet,
      c ∈ (notifyContacts f n l).contacts ∧
      ∃ b ∈ l, b.notified = false ∧
        c = { b with notified := true, notifiedAt := some n } := by
  intro l
  induction l with
  | nil => intro c hc; simp [notifyContacts] at hc
  | cons a rest ih =>
    intro c hc
    simp only [notifyContacts] at hc ⊢
    by_cases hg : (!a.notified && (a.email != "")) = true
    · have hga : a.notified = false := by
        have h := hg
        simp only [Bool.and_eq_true, Bool.not_eq_true'] at h
        exact h.1
      rw [if_pos hg] at hc ⊢
      by_cases he : f a = true
      · rw [if_pos he] at hc ⊢
        rcases List.mem_cons.1 hc with rfl | hmem
        · exact ⟨List.mem_cons_self _ _, a, List.mem_cons_self _ _, hga, rfl⟩
        · obtain ⟨hmc, b, hbl, hbn, hbe⟩ := ih c hmem
          exact ⟨List.mem_cons_of_mem _ hmc, b, List.mem_cons_of_mem _ hbl, hbn, hbe⟩
      · rw [if_neg he] at hc ⊢
        obtain ⟨hmc, b, hbl, hbn, hbe⟩ := ih c hc
        exact ⟨List.mem_cons_of_mem _ hmc, b, List.mem_cons_of_mem _ hbl, hbn, hbe⟩
    · rw [if_neg hg] at hc ⊢
      obtain ⟨hmc, b, hbl, hbn, hbe⟩ := ih c hc
      exact ⟨List.mem_cons_of_mem _ hmc, b, List.mem_cons_of_mem _ hbl, hbn, hbe⟩

/-- Two members of a list whose id projections are duplicate-free and whose
ids agree are equal. -/
theorem eq_of_mem_of_id_eq {l : List EmergencyContact}
    (hid : (l.map EmergencyContact.id).Nodup) :
    ∀ a ∈ l, ∀ b ∈ l, a.id = b.id → a = b := by
  induction l with
  | nil => intro a ha; exact absurd ha (List.not_mem_nil a)
  | cons x rest ih =>
    intro a ha b hb heq
    rw [List.map_cons, List.nodup_cons] at hid
    rcases List.mem_cons.1 ha with rfl | hma <;> rcases List.mem_cons.1 hb with rfl | hmb
    · rfl
    · exact absurd (heq ▸ List.mem_map_of_mem EmergencyContact.id hmb) hid.1
    · exact absurd (heq ▸ List.mem_map_of_mem EmergencyContact.id hma) hid.1
    · exact ih hid.2 a hma b hmb heq

/-- C5: the escalation path notifies each contact at most once per dispatch
state: contacts already notified (or without an email) are skipped outright,
and after one run of the notification loop, a second run on the resulting
contact state neither attempts another send to any contact notified in the
first run nor adds a contact with that id to the packet's notified list
again. -/
theorem handleEscalation_notify_once (f1 f2 : EmergencyContact → Bool) (n1 n2 : ℚ)
    (contacts : List EmergencyContact)
    (hid : (contacts.map EmergencyContact.id).Nodup) :
    (∀ c ∈ contacts, c.notified = true ∨ c.email = "" →
      c ∉ (notifyContacts f1 n1 contacts).attempted) ∧
    (∀ c ∈ (notifyContacts f1 n1 contacts).packet,
      c ∉ (notifyContacts f2 n2 (notifyContacts f1 n1 contacts).contacts).attempted ∧
      ∀ x ∈ (notifyContacts f2 n2 (notifyContacts f1 n1 contacts).contacts).packet,
        x.id ≠ c.id) := by
  constructor
  · intro c _ hcond hmem
    obtain ⟨hnf, hne⟩ := notifyContacts_attempted_spec f1 n1 contacts c hmem
    rcases hcond with h | h
    · rw [h] at hnf
      simp at hnf
    · exact hne h
  · intro c hc
    obtain ⟨hin1, b, _, _, hbe⟩ := notifyContacts_packet_spec f1 n1 contacts c hc
    have hcn : c.notified = true := by rw [hbe]
    constructor
    · intro hmem
      obtain ⟨hnf, _⟩ := notifyContacts_attempted_spec f2 n2 _ c hmem
      rw [hcn] at hnf
      simp at hnf
    · intro x hx heq
      obtain ⟨_, y, hyl, hyn, hye⟩ := notifyContacts_packet_spec f2 n2 _ x hx
      have hxyid : x.id = y.id := by rw [hye]
      have hnodup1 : ((notifyContacts f1 n1 contacts).contacts.map
          EmergencyContact.id).Nodup := by
        rw [notifyContacts_map_id]
        exact hid
      have hyc : y = c := eq_of_mem_of_id_eq hnodup1 y hyl c hin1 (by rw [← hxyid, heq])
      rw [hyc, hcn] at hyn
      simp at hyn

/-- A contact not yet notified with a usable email. -/
def freshContact : EmergencyContact :=
  { id := "c1", name := "Asha", phone := "111", email := "asha@example.com",
    relationship := "friend", notified := false }

/-- A contact already notified in an earlier escalation. -/
def notifiedContact : EmergencyContact :=
  { id := "c2", name := "Bea", phone := "222", email := "bea@example.com",
    relationship := "sister", notified := true }

/-- A two-contact emergency list with distinct ids. -/
def demoContacts : List EmergencyContact := [freshContact, notifiedContact]

/-- Concrete instance of notify-once: the already-notified contact is skipped
by a run of the notification loop in which every send succeeds. -/
theorem handleEscalation_notify_once_witness :
    notifiedContact ∉ (notifyContacts (fun _ => true) 0 demoContacts).attempted :=
  (handleEscalation_notify_once (fun _ => true) (fun _ => true) 0 0 demoContacts
      (by simp [demoContacts, freshContact, notifiedContact])).1
    notifiedContact (List.mem_cons_of_mem _ (List.mem_cons_self _ _)) (Or.inl rfl)

/-- Unfolding of the scan loop on a stopped pair. -/
theorem stopScan_cons_stopped (d : Location → Location → ℚ) (prev curr : Location)
    (rest : List Location) (count : ℕ) (dur : ℚ) (hs : speedOf d prev curr < 1) :
    stopScan d count dur (prev :: curr :: rest) =
      stopScan d count (dur + (curr.timestamp - prev.timestamp)) (curr :: rest) := by
  simp only [stopScan]
  rw [if_pos hs]

/-- Unfolding of the scan loop on a moving pair that closes a qualifying run. -/
theorem stopScan_cons_over (d : Location → Location → ℚ) (prev curr : Location)
    (rest : List Location) (count : ℕ) (dur : ℚ) (hs : ¬ speedOf d prev curr < 1)
    (hd : dur > SUSPICIOUS_STOP_DURATION) :
    stopScan d count dur (prev :: curr :: rest) = stopScan d (count + 1) 0 (curr :: rest) := by
  simp only [stopScan]
  rw [if_neg hs, if_pos hd]

/-- Unfolding of the scan loop on a moving pair that closes a short run. -/
theorem stopScan_cons_under (d : Location → Location → ℚ) (prev curr : Location)
    (rest : List Location) (count : ℕ) (dur : ℚ) (hs : ¬ speedOf d prev curr < 1)
    (hd : ¬ dur > SUSPICIOUS_STOP_DURATION) :
    stopScan d count dur (prev :: curr :: rest) = stopScan d count 0 (curr :: rest) := by
  simp only [stopScan]
  rw [if_neg hs, if_neg hd]

/-- The scan loop, finalized with the trailing-stop check, counts `qualCount`
many qualifying runs beyond its starting counter. -/
theorem stopScan_qualCount (d : Location → Location → ℚ) :
    ∀ (l : List Location) (count : ℕ) (dur : ℚ),
      (if (stopScan d count dur l).2 > SUSPICIOUS_STOP_DURATION
        then (stopScan d count dur l).1 + 1 else (stopScan d count dur l).1) =
      count + qualCount dur (pairSteps d l) := by
  intro l
  induction l with
  | nil =>
    intro count dur
    simp only [stopScan, pairSteps, qualCount]
    split_ifs <;> omega
  | cons prev tail ih =>
    intro count dur
    cases tail with
    | nil =>
      simp only [stopScan, pairSteps, qualCount]
      split_ifs <;> omega
    | cons curr rest =>
      by_cases hs : speedOf d prev curr < 1
      · rw [stopScan_cons_stopped d prev curr rest count dur hs]
        have hq : qualCount dur (pairSteps d (prev :: curr :: rest)) =
            qualCount (dur + (curr.timestamp - prev.timestamp)) (pairSteps d (curr :: rest)) := by
          simp only [pairSteps, qualCount, isStopped, decide_eq_true_eq]
          rw [if_pos hs]
        rw [hq]
        exact ih count (dur + (curr.timestamp - prev.timestamp))
      · by_cases hd : dur > SUSPICIOUS_STOP_DURATION
        · rw [stopScan_cons_over d prev curr rest count dur hs hd]
          have hq : qualCount dur (pairSteps d (prev :: curr :: rest)) =
              1 + qualCount 0 (pairSteps d (curr :: rest)) := by
            simp only [pairSteps, qualCount, isStopped, decide_eq_true_eq]
            rw [if_neg hs, if_pos hd]
          rw [hq, ih (count + 1) 0]
          omega
        · rw [stopScan_cons_under d prev curr rest count dur hs hd]
          have hq : qualCount dur (pairSteps d (prev :: curr :: rest)) =
              0 + qualCount 0 (pairSteps d (curr :: rest)) := by
            simp only [pairSteps, qualCount, isStopped, decide_eq_true_eq]
            rw [if_neg hs, if_neg hd]
          rw [hq, ih count 0]
          omega

/-- Run counting with an open-run accumulator closes the open run against the
first maximal stopped prefix. -/
theorem qualCount_openRun :
    ∀ (steps : List (ℚ × ℚ)) (dur : ℚ),
      qualCount dur steps =
        (if dur + ((steps.takeWhile isStopped).map Prod.snd).sum > SUSPICIOUS_STOP_DURATION
          then 1 else 0) +
        qualCount 0 (steps.dropWhile isStopped) := by
  intro steps
  induction steps with
  | nil =>
    intro dur
    simp only [qualCount, List.takeWhile_nil, List.dropWhile_nil, List.map_nil,
      List.sum_nil, add_zero]
    have h0 : ¬ ((0:ℚ) > SUSPICIOUS_STOP_DURATION) := by norm_num [SUSPICIOUS_STOP_DURATION]
    rw [if_neg h0]
    omega
  | cons p rest ih =>
    intro dur
    by_cases hs : isStopped p = true
    · rw [List.takeWhile_cons_of_pos hs, List.dropWhile_cons_of_pos hs]
      simp only [qualCount, hs, if_true, List.map_cons, List.sum_cons]
      rw [ih (dur + p.2)]
      ring_nf
    · rw [List.takeWhile_cons_of_neg (by simpa using hs),
        List.dropWhile_cons_of_neg (by simpa using hs)]
      simp only [qualCount, List.map_nil, List.sum_nil, add_zero]
      rw [if_neg hs]
      have h0 : ¬ ((0:ℚ) > SUSPICIOUS_STOP_DURATION) := by norm_num [SUSPICIOUS_STOP_DURATION]
      rw [if_neg hs, if_neg h0]
      omega

/-- With no open run, `qualCount` counts exactly the maximal stopped runs
whose accumulated duration exceeds the threshold. -/
theorem qualCount_zero_runs :
    ∀ (n : ℕ) (steps : List (ℚ × ℚ)), steps.length ≤ n →
      qualCount 0 steps =
        (stoppedRuns steps).countP
          fun run => decide (run.sum > SUSPICIOUS_STOP_DURATION) := by
  intro n
  induction n with
  | zero =>
    intro steps h
    have : steps = [] := List.eq_nil_of_length_eq_zero (Nat.le_zero.1 h)
    subst this
    simp only [qualCount, stoppedRuns, List.countP_nil]
    have h0 : ¬ ((0:ℚ) > SUSPICIOUS_STOP_DURATION) := by norm_num [SUSPICIOUS_STOP_DURATION]
    rw [if_neg h0]
  | succ n ih =>
    intro steps hlen
    cases steps with
    | nil =>
      simp only [qualCount, stoppedRuns, List.countP_nil]
      have h0 : ¬ ((0:ℚ) > SUSPICIOUS_STOP_DURATION) := by norm_num [SUSPICIOUS_STOP_DURATION]
      rw [if_neg h0]
    | cons p rest =>
      have hrest : rest.length ≤ n := by
        simpa using Nat.lt_succ_iff.1 (lt_of_lt_of_le (by simp) hlen)
      by_cases hs : isStopped p = true
      · rw [stoppedRuns]
        rw [if_pos hs]
        rw [List.countP_cons]
        simp only [qualCount, hs, if_true, zero_add]
        rw [qualCount_openRun rest p.2]
        rw [ih (rest.dropWhile isStopped)
          (le_trans (List.Sublist.length_le (List.dropWhile_sublist _)) hrest)]
        simp only [List.map_cons, List.sum_cons, decide_eq_true_eq]
        omega
      · rw [stoppedRuns]
        rw [if_neg hs]
        simp only [qualCount]
        rw [if_neg hs]
        have h0 : ¬ ((0:ℚ) > SUSPICIOUS_STOP_DURATION) := by norm_num [SUSPICIOUS_STOP_DURATION]
        rw [if_neg h0]
        rw [ih rest hrest]
        omega

/-- A history in which the rider sits still at the route start for 65 seconds
and then moves away at 111 m/s for one second. -/
def stopHistory : List Location :=
  [{ lat := 0, lng := 0, timestamp := 0, source := LocationSource.gps },
   { lat := 0, lng := 0, timestamp := 65000, source := LocationSource.gps },
   { lat := 0.001, lng := 0, timestamp := 66000, source := LocationSource.gps }]

/-- C7: the suspicious stops factor is min(count/3, 1) where count is the
number of maximal contiguous runs of consecutive-pair speeds below 1 m/s
whose accumulated duration exceeds 60000 ms — counting a run closed by a
resumed speed ≥ 1 m/s as well as a run still open at the end of the history;
in particular a rider stationary for 65 s who then resumes motion scores at
least 1/3. -/
theorem calculateSuspiciousStopsScore_runs (d : Location → Location → ℚ)
    (l : List Location) :
    calculateSuspiciousStopsScore d l =
      min ((qualifyingStopCount d l : ℚ) / 3) 1 ∧
    1 / 3 ≤ calculateSuspiciousStopsScore demoDist stopHistory := by
  constructor
  · simp only [calculateSuspiciousStopsScore]
    by_cases hl : l.length < 2
    · rw [if_pos hl]
      have hps : pairSteps d l = [] := by
        cases l with
        | nil => rfl
        | cons a tail =>
          cases tail with
          | nil => rfl
          | cons b r =>
            exfalso
            simp only [List.length_cons] at hl
            omega
      rw [qualifyingStopCount, hps]
      simp only [stoppedRuns, List.countP_nil]
      norm_num
    · rw [if_neg hl]
      rw [stopScan_qualCount d l 0 0,
        qualCount_zero_runs (pairSteps d l).length (pairSteps d l) (le_refl _)]
      rw [qualifyingStopCount]
      norm_num
  · have hsc : calculateSuspiciousStopsScore demoDist stopHistory = 1 / 3 := by
      norm_num [calculateSuspiciousStopsScore, stopHistory, stopScan, speedOf, demoDist,
        SUSPICIOUS_STOP_DURATION, min_def, abs_of_pos, abs_of_nonneg]
    rw [hsc]
